import Mathlib

/-!
Verification development for wurstmineberg/playerhead (src/playerhead.py).

The Python script fetches a Minecraft player's skin, composites a head or a
full-body sprite from fixed texture-atlas rectangles, and writes it to disk.
Below, the functions of src/playerhead.py are shallowly embedded in Lean:
pure arithmetic and image manipulation are translated directly, and the
effectful parts (HTTP requests, sleeping, filesystem) are made explicit by
passing the outcomes of the effectful steps as arguments.
-/

namespace Playerhead

/-
Fallback-skin hash (src/playerhead.py, java_uuid_hash_code, lines 88-94).

A `uuid.UUID` value is a 128-bit integer; `uuid.bytes` is its 16-byte
big-endian encoding, and `struct.unpack('>QQ', uuid.bytes)` yields the pair
(bits 127..64, bits 63..0).  The Python code binds that pair to the names
`leastSigBits, mostSigBits` in that order, so its `leastSigBits` is actually
the high 64-bit word and `mostSigBits` the low word; the embedding keeps the
source's (misleading) names and binding order.  `x & 0xFFFFFFFF` is
`x % 2^32` and `(x & 0xFFFFFFFF00000000) >> 32` is `x / 2^32 % 2^32`.
-/

/-- java_uuid_hash_code from the source: XOR of the four 32-bit quarters of
the 128-bit identifier value. -/
def java_uuid_hash_code (uuid_val : Nat) : Nat :=
  let leastSigBits := uuid_val / 2 ^ 64
  let mostSigBits := uuid_val % 2 ^ 64
  let l1 := leastSigBits % 2 ^ 32
  let l2 := leastSigBits / 2 ^ 32 % 2 ^ 32
  let m1 := mostSigBits % 2 ^ 32
  let m2 := mostSigBits / 2 ^ 32 % 2 ^ 32
  (l1 ^^^ l2) ^^^ (m1 ^^^ m2)

/-- The fallback hash as the spec words it: interpret the 128-bit identifier
as two 64-bit big-endian words (low, high), XOR the low 32 bits of each word
with its high 32 bits, then XOR the two 32-bit results together. -/
def fallbackHash_spec (uuid_val : Nat) : Nat :=
  let lo := uuid_val % 2 ^ 64
  let hi := uuid_val / 2 ^ 64
  ((lo % 2 ^ 32) ^^^ (lo / 2 ^ 32 % 2 ^ 32)) ^^^ ((hi % 2 ^ 32) ^^^ (hi / 2 ^ 32 % 2 ^ 32))

/-- The bitmap returned by skin(): either one of the two bundled default
images (Image.open of steve.png / alex.png) or the remotely fetched one. -/
inductive SkinImage where
  | builtin (name : String)
  | remote (url : String)
deriving DecidableEq

/-- The decoded textures field's SKIN entry: its url and the optional
metadata model string. -/
structure SkinEntry where
  url : String
  model : Option String
deriving DecidableEq

/-- skin() lines 131-140: the choice of skin bitmap and model tag, given
whether the decoded textures dictionary has a SKIN entry.  With no SKIN
entry the fallback is chosen by the parity of java_uuid_hash_code; otherwise
the remote bitmap is used and the model tag is alex exactly when the
metadata model is slim. -/
def skin_texture_choice (textures_skin : Option SkinEntry) (profile_id : Nat) :
    SkinImage × String :=
  match textures_skin with
  | none =>
    if java_uuid_hash_code profile_id % 2 = 0 then
      (SkinImage.builtin "steve", "steve")
    else
      (SkinImage.builtin "alex", "alex")
  | some entry =>
    (SkinImage.remote entry.url, if entry.model = some "slim" then "alex" else "steve")

/-
Rate-limit retry (src/playerhead.py, retry_request, lines 96-115).

The network is modelled by a function resp : Nat -> Nat giving the HTTP
status code of the k-th GET performed by the call.  time.sleep is modelled
by accumulating the total seconds slept.  The final raise_for_status call
of line 114 is part of retry_request itself.
-/

/-- requests.Response.raise_for_status(): raises HTTPError exactly when the
status code is in 400..599. -/
def raise_for_status (status : Nat) : Except String Nat :=
  if 400 ≤ status ∧ status < 600 then Except.error "HTTPError" else Except.ok status

/-- retry_request: up to three retries on status 429, sleeping 1s, 10s and
60s before them, then raise_for_status on whatever response is current.
Returns the result together with the total seconds slept. -/
def retry_request (resp : Nat → Nat) : Except String Nat × Nat :=
  if resp 0 = 429 then
    if resp 1 = 429 then
      if resp 2 = 429 then
        (raise_for_status (resp 3), 1 + 10 + 60)
      else
        (raise_for_status (resp 2), 1 + 10)
    else
      (raise_for_status (resp 1), 1)
  else
    (raise_for_status (resp 0), 0)

/-
Batch processing (src/playerhead.py, __main__, lines 190-233).

Each batch branch runs `if not write_head(...): sys.exit(1)` for the players
in order.  The per-player boolean results are abstracted as a list; the model
returns the outcomes of the players actually attempted together with the
process exit code (0 when the loop completes, 1 when sys.exit(1) fired).
-/

/-- The batch loop: attempt players in order, exiting with code 1 at the
first write_head that returns False; later players are not attempted. -/
def batch_process (outcomes : List Bool) : List Bool × Nat :=
  match outcomes with
  | [] => ([], 0)
  | b :: rest =>
    if b then
      let r := batch_process rest
      (b :: r.1, r.2)
    else
      ([b], 1)

/-
Image model (PIL operations used by head() and body()).

An image is a width, a height and a pixel function; pixel values are RGBA
quadruples of naturals (byte values in the real program).  Coordinates
outside the width/height range are never consulted by the claims.
-/

/-- An RGBA pixel: red, green, blue and alpha channels. -/
structure RGBA where
  r : Nat
  g : Nat
  b : Nat
  a : Nat
deriving DecidableEq

/-- An RGBA image: dimensions plus a pixel function. -/
structure Img where
  width : Nat
  height : Nat
  pix : Nat → Nat → RGBA

/-- PIL Image.crop((l, t, r, b)): the (r-l)×(b-t) sub-image whose pixel
(x, y) is the source pixel (l+x, t+y).  The right and bottom coordinates
are exclusive. -/
def Img.crop (img : Img) (l t r b : Nat) : Img :=
  ⟨r - l, b - t, fun x y => img.pix (l + x) (t + y)⟩

/-- PIL Image.paste(src, (x0, y0)) without a mask: the source pixels, alpha
included, overwrite the destination rectangle; outside it the destination is
unchanged.  (PIL mutates in place; the model returns the new image.) -/
def Img.paste (dst src : Img) (x0 y0 : Nat) : Img :=
  ⟨dst.width, dst.height, fun x y =>
    if x0 ≤ x ∧ x < x0 + src.width ∧ y0 ≤ y ∧ y < y0 + src.height then
      src.pix (x - x0) (y - y0)
    else
      dst.pix x y⟩

/-- PIL Image.transpose(Image.FLIP_LEFT_RIGHT): horizontal mirror. -/
def Img.flipLR (img : Img) : Img :=
  ⟨img.width, img.height, fun x y => img.pix (img.width - 1 - x) y⟩

/-- PIL Image.new('RGBA', (w, h)): a fully transparent black image. -/
def Img.new (w h : Nat) : Img :=
  ⟨w, h, fun _ _ => ⟨0, 0, 0, 0⟩⟩

/-- Rounded division by 255 as Pillow's C macro SHIFTFORDIV255 computes it:
(((a >> 8) + a) >> 8). -/
def shiftForDiv255 (x : Nat) : Nat :=
  (x / 2 ^ 8 + x) / 2 ^ 8

/-- One pixel of Pillow's Image.alpha_composite (AlphaComposite.c): standard
straight-alpha source-over compositing in fixed-point integer arithmetic
with PRECISION_BITS = 7.  A source pixel with alpha 0 leaves the destination
pixel unchanged (the C code copies dst verbatim in that case). -/
def alphaCompositePixel (dst src : RGBA) : RGBA :=
  if src.a = 0 then
    dst
  else
    let blend := dst.a * (255 - src.a)
    let outa255 := src.a * 255 + blend
    let coef1 := src.a * 255 * 255 * 2 ^ 7 / outa255
    let coef2 := 255 * 2 ^ 7 - coef1
    let tmpr := src.r * coef1 + dst.r * coef2
    let tmpg := src.g * coef1 + dst.g * coef2
    let tmpb := src.b * coef1 + dst.b * coef2
    ⟨shiftForDiv255 (tmpr + 128 * 2 ^ 7) / 2 ^ 7,
     shiftForDiv255 (tmpg + 128 * 2 ^ 7) / 2 ^ 7,
     shiftForDiv255 (tmpb + 128 * 2 ^ 7) / 2 ^ 7,
     shiftForDiv255 (outa255 + 128)⟩

/-- PIL Image.alpha_composite(im1, im2): composite im2 over im1 pixelwise
(the two images have equal size wherever the source calls it). -/
def Image.alpha_composite (dst src : Img) : Img :=
  ⟨dst.width, dst.height, fun x y => alphaCompositePixel (dst.pix x y) (src.pix x y)⟩

/-
Sprite compositing (src/playerhead.py, head lines 49-57 and body lines
59-86).  The skin bitmap and the model tag are passed directly, matching a
call with player_skin and model supplied; the hat keyword defaults to True
in the source but is modelled as an explicit argument.
-/

/-- head(): the 8×8 head crop (8,8)-(16,16), with the hat overlay crop
(40,8)-(48,16) alpha-composited on top when hat is set. -/
def head (player_skin : Img) (hat : Bool) : Img :=
  if hat then
    Image.alpha_composite (player_skin.crop 8 8 16 16) (player_skin.crop 40 8 48 16)
  else
    player_skin.crop 8 8 16 16

/-- body() lines 64-74: the 16×32 base canvas with head, torso, right leg,
right arm, and the left limbs taken mirrored from the right-limb crops when
the texture height is 32 and from the dedicated new-layout regions
otherwise. -/
def body_base (player_skin : Img) (model : String) : Img :=
  let r0 := Img.new 16 32
  let r1 := r0.paste (player_skin.crop 8 8 16 16) 4 0
  let r2 := r1.paste (player_skin.crop 20 20 28 32) 4 8
  let r3 := r2.paste (player_skin.crop 4 20 8 32) 4 20
  let r4 := r3.paste (player_skin.crop 44 20 (if model = "alex" then 47 else 48) 32)
    (if model = "alex" then 1 else 0) 8
  if player_skin.height = 32 then
    let r5 := r4.paste ((player_skin.crop 4 20 8 32).flipLR) 8 20
    r5.paste ((player_skin.crop 44 20 (if model = "alex" then 47 else 48) 32).flipLR) 12 8
  else
    let r5 := r4.paste (player_skin.crop 20 52 24 64) 8 20
    r5.paste (player_skin.crop 36 52 (if model = "alex" then 39 else 40) 64) 12 8

/-- body() lines 76-84: the hat layer, a fresh 16×32 canvas with the hat
crop pasted at (4,0) and, only when the texture height is 64, the jacket,
right pants leg, right sleeve, left pants leg and left sleeve crops. -/
def body_hat_layer (player_skin : Img) (model : String) : Img :=
  let h0 := Img.new 16 32
  let h1 := h0.paste (player_skin.crop 40 8 48 16) 4 0
  if player_skin.height = 64 then
    let h2 := h1.paste (player_skin.crop 20 36 28 48) 4 8
    let h3 := h2.paste (player_skin.crop 4 36 8 48) 4 20
    let h4 := h3.paste (player_skin.crop 44 36 (if model = "alex" then 47 else 48) 48)
      (if model = "alex" then 1 else 0) 8
    let h5 := h4.paste (player_skin.crop 4 52 8 64) 8 20
    h5.paste (player_skin.crop 52 52 (if model = "alex" then 55 else 56) 64) 12 8
  else
    h1

/-- body(): the base canvas, with the hat layer alpha-composited over it
when hat is set. -/
def body (player_skin : Img) (model : String) (hat : Bool) : Img :=
  if hat then
    Image.alpha_composite (body_base player_skin model) (body_hat_layer player_skin model)
  else
    body_base player_skin model

/-- Pixel of a paste inside the pasted rectangle. -/
theorem Img.paste_pix_in (dst src : Img) (x0 y0 x y : Nat)
    (h : x0 ≤ x ∧ x < x0 + src.width ∧ y0 ≤ y ∧ y < y0 + src.height) :
    (dst.paste src x0 y0).pix x y = src.pix (x - x0) (y - y0) := by
  simp [Img.paste, h]

/-- Pixel of a paste outside the pasted rectangle. -/
theorem Img.paste_pix_out (dst src : Img) (x0 y0 x y : Nat)
    (h : ¬(x0 ≤ x ∧ x < x0 + src.width ∧ y0 ≤ y ∧ y < y0 + src.height)) :
    (dst.paste src x0 y0).pix x y = dst.pix x y := by
  simp only [Img.paste]
  rw [if_neg h]

/-- Example texture for C4: a 64×32 legacy skin whose hat region
(40,8)-(48,16) is opaque red and which is transparent elsewhere. -/
def tex32hat : Img :=
  ⟨64, 32, fun x y =>
    if 40 ≤ x ∧ x < 48 ∧ 8 ≤ y ∧ y < 16 then ⟨255, 0, 0, 255⟩ else ⟨0, 0, 0, 0⟩⟩

/-- Example texture for C5 witnesses: every pixel fully transparent. -/
def texClear : Img := ⟨64, 64, fun _ _ => ⟨7, 8, 9, 0⟩⟩

/-- Example texture for C6 witnesses: a 64×64 skin with coordinate-encoding
pixels. -/
def texId : Img := ⟨64, 64, fun x y => ⟨x, y, x + y, 255⟩⟩

/-- The overlay canvas body() builds for a 32-tall texture: only the hat
region, pasted at (4,0) on a fresh transparent 16×32 canvas. -/
def legacy_hat_layer (tex : Img) : Img :=
  (Img.new 16 32).paste (tex.crop 40 8 48 16) 4 0

/-- C4 counterexample: on a 64×32 texture whose hat region is opaque red,
body() with hat=True does build and alpha-composite an overlay layer: the
head pixel (4,0) of the result is the red hat pixel, while with hat=False it
is transparent.  The claim that no overlay layer is built or applied for a
32-tall texture is therefore false. -/
theorem C4_counterexample :
    tex32hat.height = 32 ∧
    (body tex32hat "steve" true).pix 4 0 = ⟨255, 0, 0, 255⟩ ∧
    (body tex32hat "steve" false).pix 4 0 = ⟨0, 0, 0, 0⟩ := by
  refine ⟨rfl, ?_, ?_⟩ <;> decide

/-- C4 amended: for a 32-tall texture, body() with hat=True still builds an
overlay canvas, but it contains only the 8×8 hat region pasted at (4,0);
the jacket, pants and sleeve overlay regions are added only when the
texture height is 64.  The result is that overlay alpha-composited over the
hat=False body. -/
theorem C4_legacy_hat_applied (tex : Img) (model : String) (h32 : tex.height = 32) :
    body tex model true =
      Image.alpha_composite (body tex model false) (legacy_hat_layer tex) := by
  simp [body, body_hat_layer, legacy_hat_layer, h32]

/-- Witness for C4_legacy_hat_applied at the concrete texture tex32hat. -/
theorem C4_legacy_hat_applied_witness :
    body tex32hat "steve" true =
      Image.alpha_composite (body tex32hat "steve" false) (legacy_hat_layer tex32hat) :=
  C4_legacy_hat_applied tex32hat "steve" rfl

/-- C5: head() returns an 8×8 sprite; with hat=False it is exactly the head
crop (8,8)-(16,16); with hat=True every pixel is the source-over alpha
composite of the hat-overlay crop (40,8)-(48,16) over the head crop, and a
hat pixel with alpha 0 leaves the base pixel unchanged. -/
theorem C5_head_composition (tex : Img) :
    ((head tex true).width = 8 ∧ (head tex true).height = 8 ∧
     (head tex false).width = 8 ∧ (head tex false).height = 8) ∧
    head tex false = tex.crop 8 8 16 16 ∧
    (∀ x y, (head tex true).pix x y =
      alphaCompositePixel ((tex.crop 8 8 16 16).pix x y) ((tex.crop 40 8 48 16).pix x y)) ∧
    (∀ x y, ((tex.crop 40 8 48 16).pix x y).a = 0 →
      (head tex true).pix x y = (tex.crop 8 8 16 16).pix x y) := by
  refine ⟨⟨rfl, rfl, rfl, rfl⟩, rfl, fun x y => rfl, fun x y h => ?_⟩
  simp [head, Image.alpha_composite, alphaCompositePixel, h]

/-- Witness for C5_head_composition: on an all-transparent texture the
hat-on head pixel (0,0) equals the head-crop pixel. -/
theorem C5_head_composition_witness :
    (head texClear true).pix 0 0 = (texClear.crop 8 8 16 16).pix 0 0 :=
  (C5_head_composition texClear).2.2.2 0 0 rfl

/-- The body base canvas is 16 pixels wide. -/
theorem body_base_width (tex : Img) (model : String) : (body_base tex model).width = 16 := by
  unfold body_base
  split <;> split <;> rfl

/-- The body base canvas is 32 pixels tall. -/
theorem body_base_height (tex : Img) (model : String) : (body_base tex model).height = 32 := by
  unfold body_base
  split <;> split <;> rfl

/-- body() with hat=False is just the base canvas. -/
theorem body_false_eq (tex : Img) (model : String) :
    body tex model false = body_base tex model := rfl

/-- Legacy layout: the left-leg pixels of the base canvas are the
horizontally mirrored right-leg crop (4,20)-(8,32). -/
theorem body_pix_left_leg_legacy (tex : Img) (model : String) (h32 : tex.height = 32)
    (x y : Nat) (hx : x < 4) (hy : y < 12) :
    (body_base tex model).pix (8 + x) (20 + y) = tex.pix (7 - x) (20 + y) := by
  unfold body_base
  rw [if_pos h32]
  by_cases hm : model = "alex" <;>
    simp only [hm, if_true, if_false, ite_true, ite_false] <;>
      interval_cases x <;> interval_cases y <;> rfl

/-- Legacy layout: the left-arm pixels of the base canvas are the
horizontally mirrored right-arm crop, whose width depends on the model. -/
theorem body_pix_left_arm_legacy (tex : Img) (model : String) (h32 : tex.height = 32)
    (x y : Nat) (hx : x < if model = "alex" then 3 else 4) (hy : y < 12) :
    (body_base tex model).pix (12 + x) (8 + y) =
      tex.pix ((if model = "alex" then 46 else 47) - x) (20 + y) := by
  unfold body_base
  rw [if_pos h32]
  by_cases hm : model = "alex" <;>
    simp only [hm, if_true, if_false, ite_true, ite_false] at hx ⊢ <;>
      interval_cases x <;> interval_cases y <;> rfl

/-- Modern layout: the left-leg pixels of the base canvas come from the
dedicated region (20,52)-(24,64) with no flip. -/
theorem body_pix_left_leg_modern (tex : Img) (model : String) (h64 : tex.height = 64)
    (x y : Nat) (hx : x < 4) (hy : y < 12) :
    (body_base tex model).pix (8 + x) (20 + y) = tex.pix (20 + x) (52 + y) := by
  unfold body_base
  rw [if_neg (show ¬tex.height = 32 by omega)]
  by_cases hm : model = "alex" <;>
    simp only [hm, if_true, if_false, ite_true, ite_false] <;>
      interval_cases x <;> interval_cases y <;> rfl

/-- Modern layout: the left-arm pixels of the base canvas come from the
dedicated region starting at (36,52) with no flip. -/
theorem body_pix_left_arm_modern (tex : Img) (model : String) (h64 : tex.height = 64)
    (x y : Nat) (hx : x < if model = "alex" then 3 else 4) (hy : y < 12) :
    (body_base tex model).pix (12 + x) (8 + y) = tex.pix (36 + x) (52 + y) := by
  unfold body_base
  rw [if_neg (show ¬tex.height = 32 by omega)]
  by_cases hm : model = "alex" <;>
    simp only [hm, if_true, if_false, ite_true, ite_false] at hx ⊢ <;>
      interval_cases x <;> interval_cases y <;> rfl

/-- In either layout, the right-arm pixels of the base canvas come from the
crop starting at (44,20), pasted at x-offset 1 for alex and 0 otherwise. -/
theorem body_pix_right_arm (tex : Img) (model : String)
    (x y : Nat) (hx : x < if model = "alex" then 3 else 4) (hy : y < 12) :
    (body_base tex model).pix ((if model = "alex" then 1 else 0) + x) (8 + y) =
      tex.pix (44 + x) (20 + y) := by
  unfold body_base
  by_cases h32 : tex.height = 32
  · rw [if_pos h32]
    by_cases hm : model = "alex" <;>
      simp only [hm, if_true, if_false, ite_true, ite_false] at hx ⊢ <;>
        interval_cases x <;> interval_cases y <;> rfl
  · rw [if_neg h32]
    by_cases hm : model = "alex" <;>
      simp only [hm, if_true, if_false, ite_true, ite_false] at hx ⊢ <;>
        interval_cases x <;> interval_cases y <;> rfl

/-- C6: body() builds a 16×32 sprite; on a 32-tall (legacy) texture the left
leg and left arm are the horizontal mirror of the right-leg and right-arm
crops, on a 64-tall (modern) texture they come from the dedicated left-limb
regions with no flip, and the right-arm crop is 4 pixels wide for the
default model and 3 for the slim (alex) model. -/
theorem C6_body_limbs (tex : Img) (model : String) :
    ((body tex model false).width = 16 ∧ (body tex model false).height = 32) ∧
    (tex.height = 32 →
      (∀ x y, x < 4 → y < 12 →
        (body tex model false).pix (8 + x) (20 + y) = tex.pix (7 - x) (20 + y)) ∧
      (∀ x y, x < (if model = "alex" then 3 else 4) → y < 12 →
        (body tex model false).pix (12 + x) (8 + y) =
          tex.pix ((if model = "alex" then 46 else 47) - x) (20 + y))) ∧
    (tex.height = 64 →
      (∀ x y, x < 4 → y < 12 →
        (body tex model false).pix (8 + x) (20 + y) = tex.pix (20 + x) (52 + y)) ∧
      (∀ x y, x < (if model = "alex" then 3 else 4) → y < 12 →
        (body tex model false).pix (12 + x) (8 + y) = tex.pix (36 + x) (52 + y))) ∧
    ((tex.crop 44 20 (if model = "alex" then 47 else 48) 32).width =
      (if model = "alex" then 3 else 4)) ∧
    (∀ x y, x < (if model = "alex" then 3 else 4) → y < 12 →
      (body tex model false).pix ((if model = "alex" then 1 else 0) + x) (8 + y) =
        tex.pix (44 + x) (20 + y)) := by
  rw [body_false_eq]
  refine ⟨⟨body_base_width tex model, body_base_height tex model⟩, fun h32 => ?_, fun h64 => ?_,
    ?_, fun x y hx hy => body_pix_right_arm tex model x y hx hy⟩
  · exact ⟨fun x y hx hy => body_pix_left_leg_legacy tex model h32 x y hx hy,
      fun x y hx hy => body_pix_left_arm_legacy tex model h32 x y hx hy⟩
  · exact ⟨fun x y hx hy => body_pix_left_leg_modern tex model h64 x y hx hy,
      fun x y hx hy => body_pix_left_arm_modern tex model h64 x y hx hy⟩
  · by_cases hm : model = "alex" <;> simp [Img.crop, hm]

/-- Witness for C6_body_limbs: on the concrete 64×64 texture texId with the
alex model, the left-arm pixel (12,8) comes from the dedicated modern
region at (36,52). -/
theorem C6_body_limbs_witness :
    (body texId "alex" false).pix 12 8 = texId.pix 36 52 :=
  ((C6_body_limbs texId "alex").2.2.1 rfl).2 0 0 (by decide) (by decide)

/-- C1: for a profile with no SKIN texture entry, the fallback bitmap is
chosen by the parity of the XOR of the four 32-bit halves of the
identifier's two 64-bit big-endian words: steve when even, alex when odd;
identifier 1 hashes to 1 and selects alex, identifier 0 hashes to 0 and
selects steve, and equal identifiers always yield the same selection. -/
theorem C1_fallback_selection :
    (∀ n : Nat, java_uuid_hash_code n = fallbackHash_spec n) ∧
    (∀ n : Nat,
      skin_texture_choice none n =
        (if fallbackHash_spec n % 2 = 0 then (SkinImage.builtin "steve", "steve")
         else (SkinImage.builtin "alex", "alex"))) ∧
    java_uuid_hash_code 1 = 1 ∧
    skin_texture_choice none 1 = (SkinImage.builtin "alex", "alex") ∧
    java_uuid_hash_code 0 = 0 ∧
    skin_texture_choice none 0 = (SkinImage.builtin "steve", "steve") ∧
    (∀ n m : Nat, n = m → skin_texture_choice none n = skin_texture_choice none m) := by
  have hspec : ∀ n : Nat, java_uuid_hash_code n = fallbackHash_spec n := by
    intro n
    simp only [java_uuid_hash_code, fallbackHash_spec]
    exact Nat.xor_comm _ _
  refine ⟨hspec, ?_, by decide, by decide, by decide, by decide, ?_⟩
  · intro n
    simp only [skin_texture_choice, hspec n]
  · intro n m h
    rw [h]

/-- Witness for C1_fallback_selection: the determinism conjunct applied at
the concrete identifier 1. -/
theorem C1_fallback_selection_witness :
    skin_texture_choice none 1 = skin_texture_choice none 1 :=
  C1_fallback_selection.2.2.2.2.2.2 1 1 rfl

/-- C2 counterexample: on four consecutive 429 responses, retry_request does
not return the 429 response; the raise_for_status call on line 114 raises an
HTTPError (429 is in 400..599), after 71 seconds of accumulated sleeping. -/
theorem C2_counterexample :
    retry_request (fun _ => 429) = (Except.error "HTTPError", 71) := rfl

/-- C2 amended: after the fourth consecutive 429 the retry gives up, and
retry_request then raises an HTTPError from its final raise_for_status call
instead of returning the 429 response to the caller. -/
theorem C2_retry_gives_up_raises (resp : Nat → Nat) (h0 : resp 0 = 429)
    (h1 : resp 1 = 429) (h2 : resp 2 = 429) (h3 : resp 3 = 429) :
    retry_request resp = (Except.error "HTTPError", 71) := by
  simp [retry_request, raise_for_status, h0, h1, h2, h3]

/-- Witness for C2_retry_gives_up_raises at the constant 429 response
sequence. -/
theorem C2_retry_gives_up_raises_witness :
    retry_request (fun _ => 429) = (Except.error "HTTPError", 71) :=
  C2_retry_gives_up_raises (fun _ => 429) rfl rfl rfl rfl

/-- C8 counterexample: three consecutive 429 responses followed by a 200
yield the 200 result only after 1+10+60 = 71 seconds of accumulated delay,
not after 1+10 = 11 seconds as claimed. -/
theorem C8_counterexample :
    retry_request (fun k => if k < 3 then 429 else 200) = (Except.ok 200, 71) ∧
    (71 : Nat) ≠ 11 := by
  constructor
  · rfl
  · decide

/-- C8 amended: the escalating delays are 1s, 10s and 60s; one 429 then a
200 costs 1s, two 429s then a 200 cost 1+10 = 11s, and three 429s then a
200 cost 1+10+60 = 71s, the 200 being returned in each case. -/
theorem C8_retry_delays :
    (∀ resp : Nat → Nat, resp 0 = 429 → resp 1 = 200 →
      retry_request resp = (Except.ok 200, 1)) ∧
    (∀ resp : Nat → Nat, resp 0 = 429 → resp 1 = 429 → resp 2 = 200 →
      retry_request resp = (Except.ok 200, 1 + 10)) ∧
    (∀ resp : Nat → Nat, resp 0 = 429 → resp 1 = 429 → resp 2 = 429 → resp 3 = 200 →
      retry_request resp = (Except.ok 200, 1 + 10 + 60)) := by
  refine ⟨?_, ?_, ?_⟩ <;>
    intro resp <;> intros <;>
    simp [retry_request, raise_for_status, *]

/-- Witness for C8_retry_delays: the two-429s-then-200 conjunct at a
concrete response sequence. -/
theorem C8_retry_delays_witness :
    retry_request (fun k => if k < 2 then 429 else 200) = (Except.ok 200, 1 + 10) :=
  C8_retry_delays.2.1 (fun k => if k < 2 then 429 else 200) rfl rfl rfl

/-- C3 counterexample: with per-player outcomes [False, True], the batch
loop attempts only the first player (sys.exit(1) fires immediately), so the
second player is never attempted, contradicting the claim that all players
are still attempted. -/
theorem C3_counterexample :
    batch_process [false, true] = ([false], 1) ∧
    ([false] : List Bool).length ≠ ([false, true] : List Bool).length := by
  constructor
  · rfl
  · decide

/-- C3 amended: per-player errors are caught inside write_head (which
returns False), but the batch loop exits with code 1 at the first failing
player: the players attempted are the leading successes plus that first
failure, later players are skipped, and the exit code is nonzero exactly
when some attempted player failed. -/
theorem C3_batch_first_failure (outcomes : List Bool) :
    batch_process outcomes =
      (outcomes.takeWhile (fun b => b) ++
        (if outcomes.all (fun b => b) then [] else [false]),
       if outcomes.all (fun b => b) then 0 else 1) := by
  induction outcomes with
  | nil => rfl
  | cons b rest ih =>
    cases b with
    | false => simp [batch_process, List.takeWhile, List.all]
    | true => simp [batch_process, List.takeWhile, List.all, ih]

/-
Name validation (src/playerhead.py, check_nick, lines 46-47) and write_head
(lines 142-172).
-/

/-- Membership in the regex character class [A-Za-z0-9_]. -/
def isWordChar (c : Char) : Bool :=
  ('A' ≤ c && c ≤ 'Z') || ('a' ≤ c && c ≤ 'z') || ('0' ≤ c && c ≤ '9') || c == '_'

/-- check_nick: bool(re.match(p, player)) where p is the pattern matching
1 to 16 repetitions of the class [A-Za-z0-9_] followed by a dollar anchor.
re.match anchors the pattern at the start of the string, and Python's
dollar anchor matches at the end of the string or just before a single
newline at the very end, so the match succeeds iff the string is 1..16
characters from the class, optionally followed by one final newline. -/
def check_nick (player : String) : Bool :=
  let cs := player.data
  let stem := if cs.getLast? = some '\n' then cs.dropLast else cs
  decide (1 ≤ stem.length) && decide (stem.length ≤ 16) && stem.all isWordChar

/-- The set of strings check_nick accepts, described directly: a block of
1..16 word characters followed by nothing or by one newline. -/
def nick_spec (player : String) : Prop :=
  ∃ w t, player.data = w ++ t ∧ 1 ≤ w.length ∧ w.length ≤ 16 ∧
    (∀ c ∈ w, isWordChar c = true) ∧ (t = [] ∨ t = ['\n'])

/-- check_nick accepts exactly the strings of nick_spec. -/
theorem check_nick_iff (player : String) : check_nick player = true ↔ nick_spec player := by
  unfold check_nick nick_spec
  dsimp only
  by_cases hl : player.data.getLast? = some '\n'
  · rw [if_pos hl]
    constructor
    · intro h
      simp only [Bool.and_eq_true, decide_eq_true_eq, List.all_eq_true] at h
      obtain ⟨⟨h1, h2⟩, h3⟩ := h
      exact ⟨player.data.dropLast, ['\n'],
        (List.dropLast_append_getLast? '\n' (Option.mem_def.mpr hl)).symm,
        h1, h2, h3, Or.inr rfl⟩
    · rintro ⟨w, t, hsplit, h1, h2, hw, ht | ht⟩
      · exfalso
        subst ht
        rw [List.append_nil] at hsplit
        rw [hsplit] at hl
        have hmem : '\n' ∈ w := List.mem_of_mem_getLast? (Option.mem_def.mpr hl)
        have := hw '\n' hmem
        simp [isWordChar] at this
      · subst ht
        have hd : player.data.dropLast = w := by
          rw [hsplit]
          exact List.dropLast_concat
        rw [hd]
        simp only [Bool.and_eq_true, decide_eq_true_eq, List.all_eq_true]
        exact ⟨⟨h1, h2⟩, hw⟩
  · rw [if_neg hl]
    constructor
    · intro h
      simp only [Bool.and_eq_true, decide_eq_true_eq, List.all_eq_true] at h
      obtain ⟨⟨h1, h2⟩, h3⟩ := h
      exact ⟨player.data, [], (List.append_nil _).symm, h1, h2, h3, Or.inl rfl⟩
    · rintro ⟨w, t, hsplit, h1, h2, hw, ht | ht⟩
      · subst ht
        rw [List.append_nil] at hsplit
        rw [hsplit]
        simp only [Bool.and_eq_true, decide_eq_true_eq, List.all_eq_true]
        exact ⟨⟨h1, h2⟩, hw⟩
      · exfalso
        subst ht
        exact hl (by rw [hsplit]; exact List.getLast?_concat w)

/-- The resample filters of Pillow. -/
inductive ResampleFilter where
  | nearest
  | box
  | bilinear
  | hamming
  | bicubic
  | lanczos
deriving DecidableEq

/-- Modelled from Pillow's Image.resize: the resample filter used when the
caller omits the resample argument, as write_head does on line 167.  For
mode-1 and palette images the default is NEAREST; for every other mode -
in particular RGBA, the mode of every sprite produced by head() and
body() - it is BICUBIC. -/
def pil_default_resample (mode : String) : ResampleFilter :=
  if mode = "1" || mode = "P" then ResampleFilter.nearest else ResampleFilter.bicubic

/-- The effectful steps of one write_head call, made explicit: whether the
target directory exists, whether creating it raises, the outcome of the
head()/body() call (network fetch plus compositing), and whether saving the
PNG raises. -/
structure WriteEnv where
  dir_exists : Bool
  mkdir_raises : Bool
  sprite_result : Except String Img
  save_raises : Bool

/-- What a write_head call did: its boolean return value, whether the
network-touching head()/body() call was reached, and, when the PNG was
saved, the (width, height) passed to resize together with the resample
filter resize used. -/
structure WriteResult where
  ret : Bool
  network_attempted : Bool
  saved : Option (Nat × Nat × ResampleFilter)
deriving DecidableEq

/-- The try-block of write_head (lines 143-167).  Except.error is an
exception reaching the except handler of line 168; Except.ok (r, s) is a
normal return of r after saving s.  The boolean alongside records whether
the head()/body() call - and with it any network request - was reached.
The name check of lines 150-152 comes first and returns False directly;
the directory is created when missing (line 153-154); the width and height
default to 16 and 2*width in full-body mode and to 8 and width in head
mode (lines 155-166); line 167 composites, resizes with no resample
argument, and saves. -/
def write_head_try (player : String) (width height : Option Nat) (full_body : Bool)
    (env : WriteEnv) : Except String (Bool × Option (Nat × Nat × ResampleFilter)) × Bool :=
  if check_nick player = false then
    (Except.ok (false, none), false)
  else if env.dir_exists = false && env.mkdir_raises then
    (Except.error "OSError", false)
  else
    let w := if full_body then width.getD 16 else width.getD 8
    let h := if full_body then height.getD (w * 2) else height.getD w
    match env.sprite_result with
    | Except.error e => (Except.error e, true)
    | Except.ok _ =>
      if env.save_raises then
        (Except.error "OSError", true)
      else
        (Except.ok (true, some (w, h, pil_default_resample "RGBA")), true)

/-- write_head (lines 142-172): the try-block wrapped in the
except-Exception handler, which logs the traceback and returns False. -/
def write_head (player : String) (width height : Option Nat) (full_body : Bool)
    (env : WriteEnv) : WriteResult :=
  match write_head_try player width height full_body env with
  | (Except.error _, net) => ⟨false, net, none⟩
  | (Except.ok (r, s), net) => ⟨r, net, s⟩

/-- Environment in which every effectful step succeeds. -/
def envOK : WriteEnv := ⟨true, false, Except.ok (Img.new 8 8), false⟩

/-- Environment in which the target directory is missing and mkdir
raises. -/
def envMkdirFail : WriteEnv := ⟨false, true, Except.ok (Img.new 8 8), false⟩

/-- C7 counterexample: the two-character string of an A followed by a
newline passes check_nick even though the newline is outside [A-Za-z0-9_],
because Python's dollar anchor also matches just before a trailing newline;
the claim that validation succeeds exactly for strings of 1..16 characters
drawn from the class is therefore false. -/
theorem C7_counterexample :
    check_nick "A\n" = true ∧ "A\n".data = ['A', '\n'] ∧ isWordChar '\n' = false := by
  refine ⟨?_, ?_, ?_⟩ <;> decide

/-- C7 amended: check_nick accepts exactly the strings of 1..16 characters
from [A-Za-z0-9_] optionally followed by one trailing newline; Alice_99
passes, bad name! fails, a 17-character name fails, the empty string fails,
and on any name failing validation write_head returns False without
reaching the network-touching head()/body() call. -/
theorem C7_nick_validation :
    (∀ player : String, check_nick player = true ↔ nick_spec player) ∧
    check_nick "Alice_99" = true ∧
    check_nick "bad name!" = false ∧
    check_nick "Abcdefghijklmnopq" = false ∧
    check_nick "" = false ∧
    (∀ (player : String) (width height : Option Nat) (full_body : Bool) (env : WriteEnv),
      check_nick player = false →
        write_head player width height full_body env = ⟨false, false, none⟩) := by
  refine ⟨check_nick_iff, by decide, by decide, by decide, by decide, ?_⟩
  intro player width height full_body env h
  simp [write_head, write_head_try, h]

/-- Witness for C7_nick_validation: the invalid name bad name! makes
write_head report failure with no network attempt, in an environment where
every later step would have succeeded. -/
theorem C7_nick_validation_witness :
    write_head "bad name!" none none false envOK = ⟨false, false, none⟩ :=
  C7_nick_validation.2.2.2.2.2 "bad name!" none none false envOK (by decide)

/-- C9: the resize defaults are 8×8 in head mode and width 16 with height
2×width in full-body mode, but the resize call of line 167 passes no
resample argument, so the saved image is produced with Pillow's default
filter for RGBA sprites - BICUBIC - and not with the nearest-neighbor
filter that the script's own usage text (--size, --height) promises. -/
theorem C9_resize_filter :
    write_head "Steve" none none false envOK =
      ⟨true, true, some (8, 8, ResampleFilter.bicubic)⟩ ∧
    write_head "Steve" none none true envOK =
      ⟨true, true, some (16, 32, ResampleFilter.bicubic)⟩ ∧
    write_head "Steve" (some 32) none false envOK =
      ⟨true, true, some (32, 32, ResampleFilter.bicubic)⟩ ∧
    write_head "Steve" (some 10) none true envOK =
      ⟨true, true, some (10, 20, ResampleFilter.bicubic)⟩ ∧
    pil_default_resample "RGBA" = ResampleFilter.bicubic ∧
    ResampleFilter.bicubic ≠ ResampleFilter.nearest := by
  refine ⟨?_, ?_, ?_, ?_, ?_, ?_⟩ <;> decide

/-- C10: write_head never lets an exception escape and always returns a
boolean: every exception raised inside the try-block is caught and turned
into a False return, and the return value is True exactly when the save
step was reached and succeeded, i.e. exactly when a PNG was saved. -/
theorem C10_write_head_no_raise (player : String) (width height : Option Nat)
    (full_body : Bool) (env : WriteEnv) :
    (∀ e net, write_head_try player width height full_body env = (Except.error e, net) →
      write_head player width height full_body env = ⟨false, net, none⟩) ∧
    ((write_head player width height full_body env).ret = true ↔
      (write_head player width height full_body env).saved.isSome) := by
  constructor
  · intro e net h
    simp [write_head, h]
  · unfold write_head write_head_try
    obtain ⟨de, mk, sr, sv⟩ := env
    by_cases hc : check_nick player = false <;>
      cases de <;> cases mk <;> cases sr <;> cases sv <;>
        simp [hc]

/-- Witness for C10_write_head_no_raise: a raising mkdir makes write_head
return False. -/
theorem C10_write_head_no_raise_witness :
    write_head "Steve" none none false envMkdirFail = ⟨false, false, none⟩ :=
  (C10_write_head_no_raise "Steve" none none false envMkdirFail).1 "OSError" false rfl

end Playerhead
